import Mathlib

/-!
Shallow embedding of the Eulist task backend (src/index.js): a CRUD HTTP
service over a single `Task` collection.  Time is modelled as an integer
number of milliseconds since the epoch, passed explicitly as `now` to the
handlers that read the clock.  The request body is modelled field by field:
each field is `Option`-valued (absent = `none`), and the `date` field keeps
both the JavaScript truthiness of the raw value and the result of
`new Date(v)` (`none` = Invalid Date), since the handlers branch on both.
The Mongo collection is a list of tasks; `_id` is a natural number assigned
at creation.
-/

namespace Eulist

/-- The value supplied for the `date` field of a request body: `truthy` is the
JavaScript truthiness of the raw JSON value, `parsed` is `new Date(v)` in ms
since the epoch (`none` when the parse yields an Invalid Date).  Examples:
the string "2030-01-01" is ⟨true, some t⟩, the empty string is
⟨false, none⟩, the number 0 is ⟨false, some 0⟩, a garbage string is
⟨true, none⟩. -/
structure DateVal where
  truthy : Bool
  parsed : Option Int
deriving DecidableEq

/-- A JSON request body as destructured by the handlers:
`const { title, date, completed } = req.body`.  `none` means the field is
absent from the body. -/
structure ReqBody where
  title : Option String
  date : Option DateVal
  completed : Option Bool
deriving DecidableEq

/-- A stored task document, after the schema of src/index.js lines 31-49. -/
structure Task where
  id : Nat
  title : String
  date : Int
  createdAt : Int
  completed : Bool
deriving DecidableEq

/-- The `data` field of a response envelope. -/
inductive RespData where
  | nodata
  | task (t : Task)
  | tasks (l : List Task)
  | summary (id : Nat) (title : String)
deriving DecidableEq

/-- A JSON response envelope together with its HTTP status. -/
structure Response where
  status : Nat
  success : Bool
  count : Option Nat
  error : Option String
  message : Option String
  data : RespData
deriving DecidableEq

/-- Drop leading whitespace characters. -/
def dropWs : List Char → List Char
  | [] => []
  | c :: cs => if c.isWhitespace then dropWs cs else c :: cs

/-- The schema's `trim: true` setter: leading and trailing whitespace
removed. -/
def jsTrim (s : String) : String :=
  String.mk ((dropWs (dropWs s.data).reverse).reverse)

/-- JavaScript truthiness of the `title` binding: `undefined` and the empty
string are falsy. -/
def titleTruthy : Option String → Bool
  | none => false
  | some s => s != ""

/-- JavaScript truthiness of the `date` binding: `undefined` is falsy,
otherwise the truthiness of the raw value. -/
def dateTruthy : Option DateVal → Bool
  | none => false
  | some d => d.truthy

/-- JavaScript `taskDate < new Date()`: comparing an Invalid Date (NaN)
with anything is false. -/
def jsLtNow (parsed : Option Int) (now : Int) : Bool :=
  match parsed with
  | some t => decide (t < now)
  | none => false

/-- A fresh `_id` for a newly persisted document: the storage layer assigns
an id distinct from every stored one. -/
def freshId (st : List Task) : Nat :=
  (st.map Task.id).foldr max 0 + 1

/-- HTTP 400 envelope for a create request missing title or date
(src/index.js lines 114-120). -/
def respIncompleteData : Response :=
  ⟨400, false, none, some "Datos incompletos",
    some "El título y la fecha son obligatorios", RespData.nodata⟩

/-- HTTP 400 envelope for a non-future date (src/index.js lines 124-130 and
165-171). -/
def respInvalidDate : Response :=
  ⟨400, false, none, some "Fecha inválida",
    some "La fecha debe ser futura", RespData.nodata⟩

/-- HTTP 404 envelope for an id with no matching document (src/index.js
lines 84-90, 187-193, 219-225). -/
def respNotFound (i : Nat) : Response :=
  ⟨404, false, none, some "Tarea no encontrada",
    some ("No se encontró la tarea con ID: " ++ toString i), RespData.nodata⟩

/-- HTTP 500 envelope of the create handler's catch block. -/
def respCreateError (msg : String) : Response :=
  ⟨500, false, none, some "Error al crear la tarea", some msg, RespData.nodata⟩

/-- HTTP 500 envelope of the update handler's catch block. -/
def respUpdateError (msg : String) : Response :=
  ⟨500, false, none, some "Error al actualizar la tarea", some msg,
    RespData.nodata⟩

/-- The sort order of `Task.find().sort(\x7b date: 1, createdAt: -1 \x7d)`:
ascending due date, ties broken by descending creation time. -/
def taskLe (a b : Task) : Prop :=
  a.date < b.date ∨ (a.date = b.date ∧ b.createdAt ≤ a.createdAt)

instance : DecidableRel taskLe := fun a b => by
  unfold taskLe; exact inferInstance

instance : IsTotal Task taskLe :=
  ⟨by intro a b; unfold taskLe; omega⟩

instance : IsTrans Task taskLe :=
  ⟨by intro a b c hab hbc; unfold taskLe at *; omega⟩

/-- The result list of `Task.find().sort(\x7b date: 1, createdAt: -1 \x7d)`. -/
def sortTasks (st : List Task) : List Task :=
  List.insertionSort taskLe st

/-- GET /tasks (src/index.js lines 57-74). -/
def listTasks (st : List Task) : Response × List Task :=
  let sorted := sortTasks st
  (⟨200, true, some sorted.length, none, none, RespData.tasks sorted⟩, st)

/-- GET /tasks/:id (src/index.js lines 77-104), for a well-formed id. -/
def getTask (st : List Task) (i : Nat) : Response × List Task :=
  match st.find? (fun t => t.id == i) with
  | none => (respNotFound i, st)
  | some t => (⟨200, true, none, none, none, RespData.task t⟩, st)

/-- POST /tasks (src/index.js lines 107-152).  `!title || !date` rejects
absent or falsy fields; then `new Date(date) < new Date()` rejects dates
strictly before now; then the document is saved (the schema trims the title
and rejects a title empty after trimming, and an Invalid Date fails the
cast; either failure is caught and mapped to HTTP 500). -/
def createTask (now : Int) (st : List Task) (body : ReqBody) :
    Response × List Task :=
  if !titleTruthy body.title || !dateTruthy body.date then
    (respIncompleteData, st)
  else
    let dv := body.date.getD ⟨false, none⟩
    if jsLtNow dv.parsed now then
      (respInvalidDate, st)
    else
      match dv.parsed with
      | none => (respCreateError "Cast to date failed for value", st)
      | some d =>
          let ttl := jsTrim (body.title.getD "")
          if ttl = "" then
            (respCreateError "Task validation failed: title is required", st)
          else
            let newTask : Task := ⟨freshId st, ttl, d, now, false⟩
            (⟨201, true, none, none, some "Tarea creada exitosamente",
              RespData.task newTask⟩, st ++ [newTask])

/-- The update document of src/index.js lines 176-180 applied to a stored
task: `\x7b title, date: date ? new Date(date) : undefined, completed \x7d`.
Keys whose value is `undefined` are stripped from the update, so the
corresponding stored fields keep their values; a supplied title passes
through the schema's trim setter. -/
def applyUpdate (body : ReqBody) (t : Task) : Task :=
  { t with
    title := (match body.title with | some s => jsTrim s | none => t.title),
    date := (match body.date with
      | some dv => if dv.truthy then dv.parsed.getD t.date else t.date
      | none => t.date),
    completed := body.completed.getD t.completed }

/-- Replace the (unique) document matching the id, as
`findByIdAndUpdate` does. -/
def replaceFirst (st : List Task) (i : Nat) (f : Task → Task) : List Task :=
  match st with
  | [] => []
  | t :: rest =>
      if t.id == i then f t :: rest else t :: replaceFirst rest i f

/-- A supplied title that is empty after the schema's trim setter fails the
required validator that `runValidators: true` (src/index.js line 183) runs
on the update document; an absent title is stripped and validates. -/
def titleInvalid (tl : Option String) : Bool :=
  match tl with
  | some s => jsTrim s == ""
  | none => false

/-- PUT /tasks/:id (src/index.js lines 155-208), for a well-formed id.
A truthy supplied date is validated first: strictly-past parse ⇒ HTTP 400
before any storage access.  Inside `findByIdAndUpdate` the update document
is cast and validated before the query runs, whether or not the id
matches: a truthy unparseable date fails the cast ⇒ HTTP 500, and — since
the handler passes `runValidators: true` — a supplied title empty after
trimming fails the required validator ⇒ HTTP 500, with no write in either
case.  Then the document is looked up: no match ⇒ HTTP 404; otherwise the
supplied fields are applied and the updated document is returned with
`new: true`. -/
def updateTask (now : Int) (st : List Task) (i : Nat) (body : ReqBody) :
    Response × List Task :=
  if dateTruthy body.date && jsLtNow (body.date.getD ⟨false, none⟩).parsed now then
    (respInvalidDate, st)
  else if dateTruthy body.date && (body.date.getD ⟨false, none⟩).parsed.isNone then
    (respUpdateError "Cast to date failed for value", st)
  else if titleInvalid body.title then
    (respUpdateError "Validation failed: title is required", st)
  else
    match st.find? (fun t => t.id == i) with
    | none => (respNotFound i, st)
    | some t =>
        (⟨200, true, none, none, some "Tarea actualizada exitosamente",
          RespData.task (applyUpdate body t)⟩,
         replaceFirst st i (applyUpdate body))

/-- Remove the (unique) document matching the id, as
`findByIdAndDelete` does. -/
def removeFirst (st : List Task) (i : Nat) : List Task :=
  match st with
  | [] => []
  | t :: rest => if t.id == i then rest else t :: removeFirst rest i

/-- DELETE /tasks/:id (src/index.js lines 211-243), for a well-formed id.
On success the response data is the summary `\x7b id, title \x7d` of the
removed document, not the full document. -/
def deleteTask (st : List Task) (i : Nat) : Response × List Task :=
  match st.find? (fun t => t.id == i) with
  | none => (respNotFound i, st)
  | some t =>
      (⟨200, true, none, none, some "Tarea eliminada correctamente",
        RespData.summary t.id t.title⟩, removeFirst st i)

/-! ### Helper lemmas -/

theorem replaceFirst_map {β : Type} (g : Task → β) (f : Task → Task)
    (h : ∀ u, g (f u) = g u) (st : List Task) (i : Nat) :
    (replaceFirst st i f).map g = st.map g := by
  induction st with
  | nil => rfl
  | cons t rest ih =>
      by_cases ht : (t.id == i) = true
      · simp [replaceFirst, ht, h]
      · simp [replaceFirst, ht, ih]

theorem find?_removeFirst_eq_none (st : List Task) (i : Nat) (t : Task)
    (hn : (st.map Task.id).Nodup)
    (h : st.find? (fun u => u.id == i) = some t) :
    (removeFirst st i).find? (fun u => u.id == i) = none := by
  induction st with
  | nil => simp at h
  | cons u rest ih =>
      rw [List.map_cons, List.nodup_cons] at hn
      by_cases hu : (u.id == i) = true
      · rw [beq_iff_eq] at hu
        have hnone : ∀ v ∈ rest, ¬ ((v.id == i) = true) := by
          intro v hv hvi
          rw [beq_iff_eq] at hvi
          have huv : u.id = v.id := hu.trans hvi.symm
          exact hn.1 (huv ▸ List.mem_map_of_mem Task.id hv)
        have : removeFirst (u :: rest) i = rest := by
          simp [removeFirst, hu]
        rw [this, List.find?_eq_none]
        intro v hv
        simpa using hnone v hv
      · have h' : rest.find? (fun v => v.id == i) = some t := by
          rw [List.find?_cons_of_neg] at h
          · exact h
          · simpa using hu
        have : removeFirst (u :: rest) i = u :: removeFirst rest i := by
          simp [removeFirst, hu]
        rw [this, List.find?_cons_of_neg]
        · exact ih hn.2 h'
        · simpa using hu

/-! ### Claim theorems -/

/-- C1 counterexample: a create request whose parsed date equals `now` is NOT
rejected — the comparison `taskDate < new Date()` is strict, so at equality
the handler persists the task and answers HTTP 201, contradicting the claim
that a date exactly equal to now yields HTTP 400 with nothing persisted. -/
theorem createTask_accepts_date_eq_now :
    (createTask 100 [] ⟨some "a", some ⟨true, some 100⟩, none⟩).1.status = 201 ∧
    (createTask 100 [] ⟨some "a", some ⟨true, some 100⟩, none⟩).2 =
      [⟨1, "a", 100, 100, false⟩] := by
  constructor <;> decide

/-- C1 (amended): for a create request with a nonempty (after trimming)
title and a parseable date, the handler answers HTTP 400 ("La fecha debe
ser futura") with nothing persisted exactly when the parsed date is
strictly before `now`; a parsed date greater than or equal to `now`
(including exactly `now`) is persisted and answered with HTTP 201. -/
theorem createTask_past_iff_rejected (now : Int) (st : List Task)
    (s : String) (d : Int) (hs : jsTrim s ≠ "") :
    (d < now →
      createTask now st ⟨some s, some ⟨true, some d⟩, none⟩ =
        (respInvalidDate, st)) ∧
    (now ≤ d →
      createTask now st ⟨some s, some ⟨true, some d⟩, none⟩ =
        (⟨201, true, none, none, some "Tarea creada exitosamente",
          RespData.task ⟨freshId st, jsTrim s, d, now, false⟩⟩,
         st ++ [⟨freshId st, jsTrim s, d, now, false⟩])) := by
  have hs0 : s ≠ "" := by
    intro h0
    exact hs (by rw [h0]; rfl)
  constructor
  · intro hd
    simp [createTask, titleTruthy, dateTruthy, jsLtNow, hs0, hd]
  · intro hd
    simp [createTask, titleTruthy, dateTruthy, jsLtNow, hs0, not_lt.mpr hd, hs]

/-- C1 amended witness: a concrete past date is rejected with nothing
persisted. -/
theorem createTask_past_iff_rejected_witness :
    createTask 100 [] ⟨some "a", some ⟨true, some 50⟩, none⟩ =
      (respInvalidDate, []) :=
  (createTask_past_iff_rejected 100 [] "a" 50 (by decide)).1 (by decide)

/-- C2 counterexample: an update on an existing task supplying the date
field with the falsy value 0 does NOT apply it — `date ? new Date(date) :
undefined` strips the falsy value from the update document — so the stored
date stays 300 instead of becoming the supplied parse 0, contradicting the
claim that exactly the fields supplied in the body are applied. -/
theorem updateTask_supplied_falsy_date_not_applied :
    (updateTask 100 [⟨2, "b", 300, 7, true⟩] 2
      ⟨none, some ⟨false, some 0⟩, none⟩).2 = [⟨2, "b", 300, 7, true⟩] ∧
    ¬ ((updateTask 100 [⟨2, "b", 300, 7, true⟩] 2
      ⟨none, some ⟨false, some 0⟩, none⟩).2).map Task.date = [(0 : Int)] := by
  constructor <;> decide

/-- C2 (amended): on an existing task, an update whose body passes
validation (any supplied truthy date parseable and not past, any supplied
title nonempty after trimming) answers HTTP 200 and stores the task with
each supplied field applied — the title trimmed, a truthy date as parsed,
the completed flag as given — while every field not supplied keeps its
previous stored value, as do id and createdAt; however a supplied falsy
date value is ignored (the stored date is kept) rather than applied.  In
particular an update supplying only `completed: true` leaves title and
date unchanged and sets completed to true. -/
theorem updateTask_applies_supplied_fields (now : Int) (st : List Task)
    (i : Nat) (t : Task) (body : ReqBody)
    (h : st.find? (fun u => u.id == i) = some t)
    (hd : (dateTruthy body.date &&
      jsLtNow (body.date.getD ⟨false, none⟩).parsed now) = false)
    (hc : (dateTruthy body.date &&
      (body.date.getD ⟨false, none⟩).parsed.isNone) = false)
    (ht : titleInvalid body.title = false) :
    (updateTask now st i body =
      (⟨200, true, none, none, some "Tarea actualizada exitosamente",
        RespData.task (applyUpdate body t)⟩,
       replaceFirst st i (applyUpdate body))) ∧
    (body.title = none → (applyUpdate body t).title = t.title) ∧
    (∀ s, body.title = some s → (applyUpdate body t).title = jsTrim s) ∧
    ((body.date = none ∨ dateTruthy body.date = false) →
      (applyUpdate body t).date = t.date) ∧
    (∀ dv d, body.date = some dv → dv.truthy = true → dv.parsed = some d →
      (applyUpdate body t).date = d) ∧
    (body.completed = none → (applyUpdate body t).completed = t.completed) ∧
    (∀ b, body.completed = some b → (applyUpdate body t).completed = b) ∧
    (applyUpdate body t).id = t.id ∧
    (applyUpdate body t).createdAt = t.createdAt ∧
    updateTask now st i ⟨none, none, some true⟩ =
      (⟨200, true, none, none, some "Tarea actualizada exitosamente",
        RespData.task ⟨t.id, t.title, t.date, t.createdAt, true⟩⟩,
       replaceFirst st i (fun u => ⟨u.id, u.title, u.date, u.createdAt, true⟩)) := by
  have happ : applyUpdate ⟨none, none, some true⟩ =
      fun u => ⟨u.id, u.title, u.date, u.createdAt, true⟩ := by
    funext u
    simp [applyUpdate]
  refine ⟨by simp [updateTask, hd, hc, ht, h], ?_, ?_, ?_, ?_, ?_, ?_, rfl, rfl,
    by simp [updateTask, dateTruthy, titleInvalid, h, happ]⟩
  · intro h0
    simp [applyUpdate, h0]
  · intro s h0
    simp [applyUpdate, h0]
  · rintro (h0 | h0)
    · simp [applyUpdate, h0]
    · rcases hb : body.date with _ | dv
      · simp [applyUpdate, hb]
      · rw [hb] at h0
        simp only [dateTruthy] at h0
        simp [applyUpdate, hb, h0]
  · intro dv d h0 h1 h2
    simp [applyUpdate, h0, h1, h2]
  · intro h0
    simp [applyUpdate, h0]
  · intro b h0
    simp [applyUpdate, h0]

/-- C2 amended witness: updating a concrete stored task with a trimmed
title, a future date and a completed flag all supplied. -/
theorem updateTask_applies_supplied_fields_witness :
    updateTask 100 [⟨1, "a", 200, 5, false⟩] 1
      ⟨some " b ", some ⟨true, some 300⟩, some true⟩ =
      (⟨200, true, none, none, some "Tarea actualizada exitosamente",
        RespData.task ⟨1, "b", 300, 5, true⟩⟩,
       replaceFirst [⟨1, "a", 200, 5, false⟩] 1
         (applyUpdate ⟨some " b ", some ⟨true, some 300⟩, some true⟩)) :=
  (updateTask_applies_supplied_fields 100 [⟨1, "a", 200, 5, false⟩] 1
    ⟨1, "a", 200, 5, false⟩ ⟨some " b ", some ⟨true, some 300⟩, some true⟩
    (by decide) (by decide) (by decide) (by decide)).1

/-- C3: the list operation answers HTTP 200 with success, a count equal to
the number of stored tasks, and a permutation of the stored tasks sorted by
ascending due date with ties broken by descending createdAt; the store is
not modified. -/
theorem listTasks_sorted (st : List Task) :
    (listTasks st).1.status = 200 ∧ (listTasks st).1.success = true ∧
    (listTasks st).1.count = some st.length ∧ (listTasks st).2 = st ∧
    ∃ l, (listTasks st).1.data = RespData.tasks l ∧
      List.Perm l st ∧ l.Sorted taskLe := by
  refine ⟨rfl, rfl, ?_, rfl, sortTasks st, rfl, ?_, ?_⟩
  · simp [listTasks, sortTasks, (List.perm_insertionSort taskLe st).length_eq]
  · exact List.perm_insertionSort taskLe st
  · exact List.sorted_insertionSort taskLe st

/-- C4 counterexample: an update supplying the JSON number 0 as the date — a
value that parses to the epoch, far in the past — is NOT rejected: `if
(date)` is false for the falsy value 0, the validation is skipped, and the
handler answers HTTP 200 leaving the task unchanged, contradicting the
claim that every update supplying a past date answers HTTP 400. -/
theorem updateTask_falsy_past_date_not_rejected :
    (updateTask 100 [⟨1, "a", 200, 0, false⟩] 1
      ⟨none, some ⟨false, some 0⟩, none⟩).1.status = 200 ∧
    (updateTask 100 [⟨1, "a", 200, 0, false⟩] 1
      ⟨none, some ⟨false, some 0⟩, none⟩).2 = [⟨1, "a", 200, 0, false⟩] := by
  constructor <;> decide

/-- C4 (amended): an update supplying a truthy date value whose parse is
strictly before `now` answers HTTP 400 ("La fecha debe ser futura") and
leaves the store untouched — no storage write happens before the validation
rejects the request; a falsy supplied date value bypasses this
validation. -/
theorem updateTask_truthy_past_date_rejected (now : Int) (st : List Task)
    (i : Nat) (body : ReqBody) (h1 : dateTruthy body.date = true)
    (h2 : jsLtNow (body.date.getD ⟨false, none⟩).parsed now = true) :
    updateTask now st i body = (respInvalidDate, st) := by
  simp [updateTask, h1, h2]

/-- C4 amended witness: a concrete truthy past date on an update is
rejected with the store untouched. -/
theorem updateTask_truthy_past_date_rejected_witness :
    updateTask 100 [⟨1, "a", 200, 0, false⟩] 1
      ⟨none, some ⟨true, some 50⟩, none⟩ =
      (respInvalidDate, [⟨1, "a", 200, 0, false⟩]) :=
  updateTask_truthy_past_date_rejected 100 [⟨1, "a", 200, 0, false⟩] 1
    ⟨none, some ⟨true, some 50⟩, none⟩ (by decide) (by decide)

/-- C5: a create request missing the title or missing the date answers
HTTP 400 with the `success:false` "Datos incompletos" envelope and persists
nothing; moreover HTTP 400 arises only from the required-field check or
the future-date check — no other validation is performed by the
handler. -/
theorem createTask_missing_field_rejected (now : Int) (st : List Task)
    (body : ReqBody) :
    ((body.title = none ∨ body.date = none) →
      createTask now st body = (respIncompleteData, st)) ∧
    ((createTask now st body).1.status = 400 →
      titleTruthy body.title = false ∨ dateTruthy body.date = false ∨
      jsLtNow (body.date.getD ⟨false, none⟩).parsed now = true) := by
  constructor
  · rintro (h | h) <;> simp [createTask, h, titleTruthy, dateTruthy]
  · intro h400
    by_cases h1 : titleTruthy body.title = false
    · exact Or.inl h1
    by_cases h2 : dateTruthy body.date = false
    · exact Or.inr (Or.inl h2)
    refine Or.inr (Or.inr ?_)
    by_cases h3 : jsLtNow (body.date.getD ⟨false, none⟩).parsed now = true
    · exact h3
    exfalso
    have h1' : titleTruthy body.title = true := by simpa using h1
    have h2' : dateTruthy body.date = true := by simpa using h2
    have h3' : jsLtNow (body.date.getD ⟨false, none⟩).parsed now = false := by
      simpa using h3
    rcases hp : (body.date.getD ⟨false, none⟩).parsed with _ | d
    · rw [hp] at h3'
      simp [createTask, h1', h2', h3', hp, respCreateError] at h400
    · rw [hp] at h3'
      by_cases ht : jsTrim (body.title.getD "") = ""
      · simp [createTask, h1', h2', h3', hp, ht, respCreateError] at h400
      · simp [createTask, h1', h2', h3', hp, ht] at h400

/-- C5 witness: a concrete create request with no title answers HTTP 400
and persists nothing. -/
theorem createTask_missing_field_rejected_witness :
    createTask 100 [] ⟨none, some ⟨true, some 200⟩, none⟩ =
      (respIncompleteData, []) :=
  (createTask_missing_field_rejected 100 []
    ⟨none, some ⟨true, some 200⟩, none⟩).1 (Or.inl rfl)

/-- C6 counterexample: an update on an id matching no stored task whose
body carries a truthy past date answers HTTP 400, not HTTP 404 — the date
validation runs before the lookup — contradicting the claim that every
update on a nonexistent id answers HTTP 404. -/
theorem updateTask_missing_id_past_date_400 :
    (updateTask 100 [] 1 ⟨none, some ⟨true, some 0⟩, none⟩).1.status = 400 ∧
    ¬ (updateTask 100 [] 1 ⟨none, some ⟨true, some 0⟩, none⟩).1.status = 404 := by
  constructor <;> decide

/-- C6 (amended): on an id matching no stored task, get-by-id and delete
always answer HTTP 404 with the not-found envelope and leave the store
unchanged; update also leaves the store unchanged in every case, and
answers HTTP 404 provided the supplied fields do not fail validation (a
truthy past date answers 400, and a truthy unparseable date or a supplied
title empty after trimming answer 500, all before the lookup). -/
theorem notFound_responses (now : Int) (st : List Task) (i : Nat)
    (body : ReqBody) (h : st.find? (fun u => u.id == i) = none) :
    getTask st i = (respNotFound i, st) ∧
    deleteTask st i = (respNotFound i, st) ∧
    (updateTask now st i body).2 = st ∧
    ((dateTruthy body.date &&
        jsLtNow (body.date.getD ⟨false, none⟩).parsed now) = false →
      (dateTruthy body.date &&
        (body.date.getD ⟨false, none⟩).parsed.isNone) = false →
      titleInvalid body.title = false →
      updateTask now st i body = (respNotFound i, st)) := by
  refine ⟨by simp [getTask, h], by simp [deleteTask, h], ?_, ?_⟩
  · by_cases c1 : (dateTruthy body.date &&
        jsLtNow (body.date.getD ⟨false, none⟩).parsed now) = true
    · simp [updateTask, c1]
    by_cases c2 : (dateTruthy body.date &&
        (body.date.getD ⟨false, none⟩).parsed.isNone) = true
    · simp [updateTask, eq_false_of_ne_true c1, c2]
    by_cases c3 : titleInvalid body.title = true
    · simp [updateTask, eq_false_of_ne_true c1, eq_false_of_ne_true c2, c3]
    · simp [updateTask, eq_false_of_ne_true c1, eq_false_of_ne_true c2,
        eq_false_of_ne_true c3, h]
  · intro c1 c2 c3
    simp [updateTask, c1, c2, c3, h]

/-- C6 amended witness: concrete get, delete and (validation-passing)
update on an id absent from the store. -/
theorem notFound_responses_witness :
    getTask [] 1 = (respNotFound 1, []) ∧
    deleteTask [] 1 = (respNotFound 1, []) ∧
    (updateTask 100 [] 1 ⟨none, none, none⟩).2 = [] ∧
    updateTask 100 [] 1 ⟨none, none, none⟩ = (respNotFound 1, []) := by
  have h := notFound_responses 100 [] 1 ⟨none, none, none⟩ (by decide)
  exact ⟨h.1, h.2.1, h.2.2.1, h.2.2.2 (by decide) (by decide) (by decide)⟩

/-- C7: deleting an existing task (ids unique in the store) answers
HTTP 200 whose data is exactly the summary `\x7b id, title \x7d` of the removed
record, removes it from the store, and a subsequent get-by-id on that id
answers the HTTP 404 not-found envelope. -/
theorem deleteTask_existing (st : List Task) (i : Nat) (t : Task)
    (hn : (st.map Task.id).Nodup)
    (h : st.find? (fun u => u.id == i) = some t) :
    deleteTask st i =
      (⟨200, true, none, none, some "Tarea eliminada correctamente",
        RespData.summary t.id t.title⟩, removeFirst st i) ∧
    (getTask (removeFirst st i) i).1 = respNotFound i := by
  refine ⟨by simp [deleteTask, h], ?_⟩
  have hnone := find?_removeFirst_eq_none st i t hn h
  simp [getTask, hnone]

/-- C7 witness: deleting a concrete stored task, then getting it. -/
theorem deleteTask_existing_witness :
    deleteTask [⟨1, "a", 200, 5, false⟩] 1 =
      (⟨200, true, none, none, some "Tarea eliminada correctamente",
        RespData.summary 1 "a"⟩, removeFirst [⟨1, "a", 200, 5, false⟩] 1) ∧
    (getTask (removeFirst [⟨1, "a", 200, 5, false⟩] 1) 1).1 = respNotFound 1 :=
  deleteTask_existing [⟨1, "a", 200, 5, false⟩] 1 ⟨1, "a", 200, 5, false⟩
    (by decide) (by decide)

/-- C8: every update request — whatever the body and whether or not the id
matches — leaves every stored task's id and createdAt exactly as they were:
the list of (id, createdAt) pairs of the store is unchanged, so only title,
date and completed can ever be modified. -/
theorem updateTask_preserves_id_createdAt (now : Int) (st : List Task)
    (i : Nat) (body : ReqBody) :
    ((updateTask now st i body).2).map (fun t => (t.id, t.createdAt)) =
      st.map (fun t => (t.id, t.createdAt)) := by
  by_cases c1 : (dateTruthy body.date &&
      jsLtNow (body.date.getD ⟨false, none⟩).parsed now) = true
  · simp [updateTask, c1]
  by_cases c2 : (dateTruthy body.date &&
      (body.date.getD ⟨false, none⟩).parsed.isNone) = true
  · simp [updateTask, eq_false_of_ne_true c1, c2]
  by_cases c3 : titleInvalid body.title = true
  · simp [updateTask, eq_false_of_ne_true c1, eq_false_of_ne_true c2, c3]
  rcases hf : st.find? (fun u => u.id == i) with _ | t
  · simp [updateTask, eq_false_of_ne_true c1, eq_false_of_ne_true c2,
      eq_false_of_ne_true c3, hf]
  · have : (updateTask now st i body).2 = replaceFirst st i (applyUpdate body) := by
      simp [updateTask, eq_false_of_ne_true c1, eq_false_of_ne_true c2,
        eq_false_of_ne_true c3, hf]
    rw [this]
    exact replaceFirst_map (fun t => (t.id, t.createdAt)) (applyUpdate body)
      (fun u => rfl) st i

/-- C9: an update request on an existing task whose body explicitly
supplies `completed: false` applies the false value — it is not treated as
an omitted field: the stored task's completed flag becomes false while
title, date, id and createdAt keep their values, and the handler answers
HTTP 200 with that task. -/
theorem updateTask_explicit_completed_false (now : Int) (st : List Task)
    (i : Nat) (t : Task) (h : st.find? (fun u => u.id == i) = some t) :
    updateTask now st i ⟨none, none, some false⟩ =
      (⟨200, true, none, none, some "Tarea actualizada exitosamente",
        RespData.task ⟨t.id, t.title, t.date, t.createdAt, false⟩⟩,
       replaceFirst st i (fun u => ⟨u.id, u.title, u.date, u.createdAt, false⟩)) := by
  have happ : applyUpdate ⟨none, none, some false⟩ =
      fun u => ⟨u.id, u.title, u.date, u.createdAt, false⟩ := by
    funext u
    simp [applyUpdate]
  simp [updateTask, dateTruthy, titleInvalid, h, happ]

/-- C9 witness: explicit `completed: false` flips a concrete task stored
with `completed = true` back to false, so it is distinguishable from
omission (which would have kept true). -/
theorem updateTask_explicit_completed_false_witness :
    updateTask 100 [⟨1, "a", 200, 5, true⟩] 1 ⟨none, none, some false⟩ =
      (⟨200, true, none, none, some "Tarea actualizada exitosamente",
        RespData.task ⟨1, "a", 200, 5, false⟩⟩,
       replaceFirst [⟨1, "a", 200, 5, true⟩] 1
         (fun u => ⟨u.id, u.title, u.date, u.createdAt, false⟩)) :=
  updateTask_explicit_completed_false 100 [⟨1, "a", 200, 5, true⟩] 1
    ⟨1, "a", 200, 5, true⟩ (by decide)

/-- C10 counterexample: an update on an existing task supplying both a
falsy date value and an empty title answers HTTP 500 — the required
validator run by `runValidators: true` rejects the empty title before the
lookup — not HTTP 200 as the claim states for every update supplying a
falsy date. -/
theorem updateTask_empty_title_500 :
    (updateTask 100 [⟨1, "a", 200, 5, false⟩] 1
      ⟨some "", some ⟨false, some 0⟩, none⟩).1.status = 500 ∧
    ¬ (updateTask 100 [⟨1, "a", 200, 5, false⟩] 1
      ⟨some "", some ⟨false, some 0⟩, none⟩).1.status = 200 ∧
    (updateTask 100 [⟨1, "a", 200, 5, false⟩] 1
      ⟨some "", some ⟨false, some 0⟩, none⟩).2 = [⟨1, "a", 200, 5, false⟩] := by
  refine ⟨by decide, by decide, by decide⟩

/-- C10 (amended): an update request on an existing task supplying a falsy
date value (the empty string, the number 0, …) skips the future-date
validation entirely: whatever the parse of that value would be, the
request is never rejected with HTTP 400 and every stored task's date is
left unchanged; the response is HTTP 200 provided any supplied title is
nonempty after trimming (a supplied empty title still answers HTTP 500
from the required validator, with the store unchanged). -/
theorem updateTask_falsy_date_skips_validation (now : Int) (st : List Task)
    (i : Nat) (t : Task) (dv : DateVal) (tl : Option String)
    (cp : Option Bool) (hdv : dv.truthy = false)
    (h : st.find? (fun u => u.id == i) = some t) :
    ¬ (updateTask now st i ⟨tl, some dv, cp⟩).1.status = 400 ∧
    ((updateTask now st i ⟨tl, some dv, cp⟩).2).map Task.date =
      st.map Task.date ∧
    (titleInvalid tl = false →
      (updateTask now st i ⟨tl, some dv, cp⟩).1.status = 200) := by
  have hguard : dateTruthy (some dv) = false := hdv
  by_cases c3 : titleInvalid tl = true
  · have hupd : updateTask now st i ⟨tl, some dv, cp⟩ =
        (respUpdateError "Validation failed: title is required", st) := by
      simp [updateTask, hguard, c3]
    rw [hupd]
    refine ⟨by simp [respUpdateError], rfl, ?_⟩
    intro h0
    rw [h0] at c3
    exact absurd c3 (by simp)
  · have hupd : updateTask now st i ⟨tl, some dv, cp⟩ =
        (⟨200, true, none, none, some "Tarea actualizada exitosamente",
          RespData.task (applyUpdate ⟨tl, some dv, cp⟩ t)⟩,
         replaceFirst st i (applyUpdate ⟨tl, some dv, cp⟩)) := by
      simp [updateTask, hguard, eq_false_of_ne_true c3, h]
    rw [hupd]
    refine ⟨by simp, ?_, fun _ => rfl⟩
    exact replaceFirst_map Task.date (applyUpdate ⟨tl, some dv, cp⟩)
      (fun u => by simp [applyUpdate, hdv]) st i

/-- C10 amended witness: supplying the empty string (falsy, unparseable) as
the date on a concrete stored task is not answered 400, leaves all dates
unchanged, and answers HTTP 200 since no title is supplied. -/
theorem updateTask_falsy_date_skips_validation_witness :
    ¬ (updateTask 100 [⟨1, "a", 200, 5, false⟩] 1
      ⟨none, some ⟨false, none⟩, none⟩).1.status = 400 ∧
    ((updateTask 100 [⟨1, "a", 200, 5, false⟩] 1
      ⟨none, some ⟨false, none⟩, none⟩).2).map Task.date =
      [⟨1, "a", 200, 5, false⟩].map Task.date ∧
    (updateTask 100 [⟨1, "a", 200, 5, false⟩] 1
      ⟨none, some ⟨false, none⟩, none⟩).1.status = 200 := by
  have h := updateTask_falsy_date_skips_validation 100
    [⟨1, "a", 200, 5, false⟩] 1 ⟨1, "a", 200, 5, false⟩ ⟨false, none⟩
    none none rfl (by decide)
  exact ⟨h.1, h.2.1, h.2.2 (by decide)⟩

end Eulist
